import Mathlib

/-!
Verification of `pytorch3d/vis/plotly_vis.py`.

This file gives a shallow embedding of the plotly visualization module:
pure Lean functions mirroring the Python functions `plot_scene`,
`plot_batch_individually`, `_add_struct_from_batch`, `_add_mesh_trace`,
`_add_pointcloud_trace`, `_gen_fig_with_subplots` and `_update_axes_bounds`,
together with theorems about them.

Modelling conventions:
* float tensors are modelled with exact rationals (`ℚ`); the properties
  checked here involve only `min`/`max`, addition, scalar multiplication and
  means, which are exact in any ordered field;
* a batched `Meshes`/`Pointclouds` structure is modelled by the list of its
  batch elements (an element of abstract type `α`): the visualization code
  uses only `len(struct)` and `struct[i]` on the batch dimension;
* Python dictionaries (which preserve insertion order, and whose keys are
  distinct in all the scenarios considered here) are modelled by
  association lists;
* a Python function that may `raise ValueError(msg)` is modelled in
  `Except String`; a path that only emits a `warnings.warn` and returns
  `None` is modelled by a distinguished `none`-like value, as documented at
  each definition.
-/

set_option autoImplicit false

namespace PlotlyVis

/-- A 3D point with exact rational coordinates (one row of a float tensor
of shape `(n, 3)`). -/
abbrev Vec3 := ℚ × ℚ × ℚ

/-! ### `_update_axes_bounds`

The Python function receives a trace's center (a 3-vector) and its maximal
spread `max_expand`, computes the candidate cube
`[center - max_expand, center + max_expand]` per axis, and merges it with
the subplot's current range (if any) by `min`/`max`.  `axis_update` is the
per-axis body (the code repeats it verbatim for the x, y and z axes);
`_update_axes_bounds` applies it to all three axes. -/

/-- One axis of `_update_axes_bounds`: candidate range is
`(c - h, c + h)`; with a prior range `(a, b)` the result is
`(min (c - h) a, max (c + h) b)`, otherwise the candidate itself. -/
def axis_update (old : Option (ℚ × ℚ)) (c h : ℚ) : ℚ × ℚ :=
  match old with
  | none => (c - h, c + h)
  | some (a, b) => (min (c - h) a, max (c + h) b)

/-- `_update_axes_bounds(verts_center, max_expand, current_layout)`:
updates the x, y and z ranges of a subplot layout (each possibly absent)
with the cube induced by `verts_center` and `max_expand`. -/
def _update_axes_bounds (verts_center : Vec3) (max_expand : ℚ)
    (old : Option (ℚ × ℚ) × Option (ℚ × ℚ) × Option (ℚ × ℚ)) :
    (ℚ × ℚ) × (ℚ × ℚ) × (ℚ × ℚ) :=
  (axis_update old.1 verts_center.1 max_expand,
   axis_update old.2.1 verts_center.2.1 max_expand,
   axis_update old.2.2 verts_center.2.2 max_expand)

/-- Folding `axis_update` over a sequence of traces, each contributing a
center `t.1` and half-extent `t.2` on this axis, starting from the
subplot's initial range state `init` (absent before the first trace). -/
def apply_traces (init : Option (ℚ × ℚ)) (traces : List (ℚ × ℚ)) :
    Option (ℚ × ℚ) :=
  traces.foldl (fun acc t => some (axis_update acc t.1 t.2)) init

theorem axis_update_none (c h : ℚ) : axis_update none c h = (c - h, c + h) := rfl

theorem axis_update_some (a b c h : ℚ) :
    axis_update (some (a, b)) c h = (min (c - h) a, max (c + h) b) := rfl

/-- `axis_update` never shrinks an existing range. -/
theorem axis_update_superset (a b c h : ℚ) :
    (axis_update (some (a, b)) c h).1 ≤ a ∧ b ≤ (axis_update (some (a, b)) c h).2 := by
  constructor
  · exact min_le_right _ _
  · exact le_max_right _ _

/-- The result of `axis_update` always contains the candidate cube range. -/
theorem axis_update_contains_candidate (old : Option (ℚ × ℚ)) (c h : ℚ) :
    (axis_update old c h).1 ≤ c - h ∧ c + h ≤ (axis_update old c h).2 := by
  cases old with
  | none => exact ⟨le_refl _, le_refl _⟩
  | some p =>
    obtain ⟨a, b⟩ := p
    exact ⟨min_le_left _ _, le_max_left _ _⟩

/-- Folding from a range that already contains a given interval keeps
containing it, and the fold always produces a concrete range when started
from a concrete range. -/
theorem apply_traces_mono (traces : List (ℚ × ℚ)) (lo hi : ℚ) :
    ∃ q : ℚ × ℚ, apply_traces (some (lo, hi)) traces = some q ∧ q.1 ≤ lo ∧ hi ≤ q.2 := by
  induction traces generalizing lo hi with
  | nil => exact ⟨(lo, hi), rfl, le_refl _, le_refl _⟩
  | cons t ts ih =>
    obtain ⟨q, hq, h1, h2⟩ := ih (min (t.1 - t.2) lo) (max (t.1 + t.2) hi)
    refine ⟨q, ?_, ?_, ?_⟩
    · simpa [apply_traces, axis_update] using hq
    · exact le_trans h1 (min_le_right _ _)
    · exact le_trans (le_max_right _ _) h2

/-- Every trace ever folded into the axis state stays contained in the
final range. -/
theorem apply_traces_superset (init : Option (ℚ × ℚ)) (traces : List (ℚ × ℚ))
    (t : ℚ × ℚ) (ht : t ∈ traces) :
    ∃ q : ℚ × ℚ, apply_traces init traces = some q ∧
      q.1 ≤ t.1 - t.2 ∧ t.1 + t.2 ≤ q.2 := by
  induction traces generalizing init with
  | nil => cases ht
  | cons u us ih =>
    rcases List.mem_cons.mp ht with h | h
    · subst h
      have hc := axis_update_contains_candidate init t.1 t.2
      obtain ⟨q, hq, h1, h2⟩ := apply_traces_mono us (axis_update init t.1 t.2).1
        (axis_update init t.1 t.2).2
      refine ⟨q, ?_, le_trans h1 hc.1, le_trans hc.2 h2⟩
      simpa [apply_traces] using hq
    · obtain ⟨q, hq, h1, h2⟩ := ih (some (axis_update init u.1 u.2)) h
      exact ⟨q, by simpa [apply_traces] using hq, h1, h2⟩

/-- C3: the axis-bounds update is idempotent (re-applying with the same
center and half-extent leaves the range unchanged) and monotonically
non-shrinking (the result contains the prior range when one exists and
equals the candidate cube when none exists), and consequently the final
per-axis range of a subplot is a superset of the cube range induced by
each individual trace added to it, in any order. -/
theorem claim_C3 (old : Option (ℚ × ℚ)) (a b c h : ℚ)
    (init : Option (ℚ × ℚ)) (traces : List (ℚ × ℚ)) (t : ℚ × ℚ)
    (ht : t ∈ traces) :
    axis_update (some (axis_update old c h)) c h = axis_update old c h ∧
    ((axis_update (some (a, b)) c h).1 ≤ a ∧ b ≤ (axis_update (some (a, b)) c h).2) ∧
    axis_update none c h = (c - h, c + h) ∧
    (∃ q : ℚ × ℚ, apply_traces init traces = some q ∧
      q.1 ≤ t.1 - t.2 ∧ t.1 + t.2 ≤ q.2) := by
  refine ⟨?_, axis_update_superset a b c h, rfl, apply_traces_superset init traces t ht⟩
  cases old with
  | none =>
    simp [axis_update]
  | some p =>
    obtain ⟨x, y⟩ := p
    simp [axis_update, ← min_assoc, ← max_assoc]

/-- Witness for C3 at a concrete prior range, candidate and trace list. -/
theorem claim_C3_witness :
    axis_update (some (axis_update (some ((0 : ℚ), 1)) 2 1)) 2 1 =
      axis_update (some ((0 : ℚ), 1)) 2 1 ∧
    ((axis_update (some ((0 : ℚ), 1)) 2 1).1 ≤ 0 ∧
      (1 : ℚ) ≤ (axis_update (some ((0 : ℚ), 1)) 2 1).2) ∧
    axis_update none (2 : ℚ) 1 = (2 - 1, 2 + 1) ∧
    (∃ q : ℚ × ℚ, apply_traces none [((2 : ℚ), (1 : ℚ)), (0, 5)] = some q ∧
      q.1 ≤ 2 - 1 ∧ 2 + 1 ≤ q.2) :=
  claim_C3 (some ((0 : ℚ), 1)) 0 1 2 1 none [((2 : ℚ), (1 : ℚ)), (0, 5)]
    (2, 1) (by simp)

/-! ### `_gen_fig_with_subplots`

The Python function warns when `batch_size % ncols != 0`, and builds a
figure with `batch_size // ncols` rows of `ncols` subplots, each declared
with spec `{"type": "scene"}` (modelled by the string `"scene"`). -/

/-- The figure skeleton produced by `make_subplots`: whether the
non-rectangular-grid warning fired, the grid dimensions, the per-cell
specs and the subplot titles. -/
structure SubplotGrid where
  warned : Bool
  rows : ℕ
  cols : ℕ
  specs : List (List String)
  titles : List String
deriving DecidableEq

/-- `_gen_fig_with_subplots(batch_size, ncols, subplot_titles)`. -/
def _gen_fig_with_subplots (batch_size ncols : ℕ) (subplot_titles : List String) :
    SubplotGrid :=
  { warned := batch_size % ncols != 0
    rows := batch_size / ncols
    cols := ncols
    specs := List.replicate (batch_size / ncols) (List.replicate ncols "scene")
    titles := subplot_titles }

/-- C8: for a positive `ncols` that does not divide the scene count the
grid construction emits a warning and proceeds, and the grid always has
exactly `scene_count / ncols` rows (integer division, not rounded up) and
`ncols` columns, with every cell a 3D-scene subplot. -/
theorem claim_C8 (scene_count ncols : ℕ) (titles : List String)
    (_hpos : 0 < ncols) :
    (scene_count % ncols ≠ 0 →
      (_gen_fig_with_subplots scene_count ncols titles).warned = true) ∧
    (_gen_fig_with_subplots scene_count ncols titles).rows = scene_count / ncols ∧
    (_gen_fig_with_subplots scene_count ncols titles).cols = ncols ∧
    (_gen_fig_with_subplots scene_count ncols titles).specs.length = scene_count / ncols ∧
    ∀ row ∈ (_gen_fig_with_subplots scene_count ncols titles).specs,
      row.length = ncols ∧ ∀ cell ∈ row, cell = "scene" := by
  refine ⟨?_, rfl, rfl, by simp [_gen_fig_with_subplots], ?_⟩
  · intro hmod
    simp [_gen_fig_with_subplots, hmod]
  · intro row hrow
    have hr := List.eq_of_mem_replicate hrow
    subst hr
    exact ⟨List.length_replicate _ _, fun cell hc => List.eq_of_mem_replicate hc⟩

/-- Witness for C8 with 5 scenes in 2 columns. -/
theorem claim_C8_witness :
    ((5 % 2 ≠ 0 → (_gen_fig_with_subplots 5 2 ["a", "b"]).warned = true) ∧
      (_gen_fig_with_subplots 5 2 ["a", "b"]).rows = 5 / 2 ∧
      (_gen_fig_with_subplots 5 2 ["a", "b"]).cols = 2 ∧
      (_gen_fig_with_subplots 5 2 ["a", "b"]).specs.length = 5 / 2 ∧
      ∀ row ∈ (_gen_fig_with_subplots 5 2 ["a", "b"]).specs,
        row.length = 2 ∧ ∀ cell ∈ row, cell = "scene") :=
  claim_C8 5 2 ["a", "b"] (by decide)

/-! ### `plot_batch_individually` and `_add_struct_from_batch`

A batched structure is modelled by the list of its batch elements
(`len(struct)` is the list length, `struct[i]` is list indexing).  The
input of `plot_batch_individually` is either a list of batched structures
(`Sum.inl`) or a single batched structure (`Sum.inr`).

The result models the observable outcome of the call:
* `Except.error msg` — the call raises `ValueError(msg)`;
* `Except.ok none` — the call emits the `"No structs to plot"` warning and
  returns `None` without building a figure;
* `Except.ok (some d)` — the call builds the scene dictionary `d`
  (subplot title to (trace name to batch element), in insertion order)
  and returns `plot_scene(d)`.

The titles generated on the default path (`"subplot 1"`, `"subplot 2"`,
...) are pairwise distinct, and so are the generated trace names inside
one subplot, so the association lists coincide with the Python dicts. -/

/-- A scene dictionary: subplot title to list of (trace name, batch
element), in insertion order. -/
abbrev SceneDict (α : Type) := List (String × List (String × α))

/-- `len(batched_structs)`: list length for a list input, batch length
for a single structure. -/
def input_len {α : Type} (input : List (List α) ⊕ List α) : ℕ :=
  match input with
  | Sum.inl structs => structs.length
  | Sum.inr s => s.length

/-- `max_size`: `max(len(s) for s in batched_structs)` for a list input,
`len(batched_structs)` for a single structure. -/
def max_size_of {α : Type} (input : List (List α) ⊕ List α) : ℕ :=
  match input with
  | Sum.inl structs => (structs.map List.length).foldl max 0
  | Sum.inr s => s.length

/-- The first structure (in order) of a list input whose batch size is
neither `1` nor `max_size` — the structure whose check
`len(struct) not in (1, max_size)` raises first.  `none` for a single
structure, where no such loop runs. -/
def bad_size_struct {α : Type} (input : List (List α) ⊕ List α) : Option (List α) :=
  match input with
  | Sum.inl structs =>
      structs.find? (fun s => !(s.length == 1 || s.length == max_size_of input))
  | Sum.inr _ => none

/-- Python truthiness of the `subplot_titles` argument: `if subplot_titles:`
is `False` both for `None` and for the empty list. -/
def titles_truthy : Option (List String) → Bool
  | some ts => !ts.isEmpty
  | none => false

/-- The title of subplot `scene_num`:
`subplot_titles[scene_num] if subplot_titles else "subplot " + str(scene_num + 1)`. -/
def subplot_name (subplot_titles : Option (List String)) (scene_num : ℕ) : String :=
  if titles_truthy subplot_titles then (subplot_titles.getD []).getD scene_num ""
  else "subplot " ++ toString (scene_num + 1)

/-- `_add_struct_from_batch(batched_struct, scene_num, ..., trace_idx)`:
indexes the batch at `min(scene_num, len(batched_struct) - 1)` and names
the trace `"trace{scene_num + 1}-{trace_idx}"`.  Returns the (trace name,
element) pair inserted into the scene dictionary. -/
def _add_struct_from_batch {α : Type} [Inhabited α] (batched_struct : List α)
    (scene_num : ℕ) (trace_idx : ℕ) : String × α :=
  ("trace" ++ toString (scene_num + 1) ++ "-" ++ toString trace_idx,
   batched_struct.getD (min scene_num (batched_struct.length - 1)) default)

/-- The trace entries of subplot `scene_num`.  For a list input, structure
at list position `i` is skipped exactly when `i >= len(struct)` and
`extend_struct` is false (note: the Python code tests the list position
`i`, not the subplot index `scene_num`); otherwise it is added via
`_add_struct_from_batch` with `trace_idx = i + 1`.  A single structure is
always added with `trace_idx = 1`. -/
def subplot_entries {α : Type} [Inhabited α] (input : List (List α) ⊕ List α)
    (extend_struct : Bool) (scene_num : ℕ) : List (String × α) :=
  match input with
  | Sum.inl structs =>
      structs.enum.filterMap (fun p =>
        if p.2.length ≤ p.1 ∧ extend_struct = false then none
        else some (_add_struct_from_batch p.2 scene_num (p.1 + 1)))
  | Sum.inr s => [_add_struct_from_batch s scene_num 1]

/-- The scene dictionary built by `plot_batch_individually` once all
validation has passed: one subplot per index in `range(max_size)`. -/
def scene_dictionary {α : Type} [Inhabited α] (input : List (List α) ⊕ List α)
    (extend_struct : Bool) (subplot_titles : Option (List String)) : SceneDict α :=
  (List.range (max_size_of input)).map (fun scene_num =>
    (subplot_name subplot_titles scene_num,
     subplot_entries input extend_struct scene_num))

/-- `plot_batch_individually(batched_structs, extend_struct=, subplot_titles=)`,
following the Python control flow in order: the empty-input warning path,
the per-structure batch-size check, the `max_size == 0` check, the
subplot-title count check, then construction of the scene dictionary
passed to `plot_scene`. -/
def plot_batch_individually {α : Type} [Inhabited α]
    (batched_structs : List (List α) ⊕ List α) (extend_struct : Bool)
    (subplot_titles : Option (List String)) :
    Except String (Option (SceneDict α)) :=
  if input_len batched_structs = 0 then Except.ok none
  else
    match bad_size_struct batched_structs with
    | some s => Except.error ("invalid batch size " ++ toString s.length ++ " provided")
    | none =>
      if max_size_of batched_structs = 0 then
        Except.error "No data is provided with at least one element"
      else if titles_truthy subplot_titles = true ∧
          (subplot_titles.getD []).length ≠ max_size_of batched_structs then
        Except.error "invalid number of subplot titles"
      else
        Except.ok (some (scene_dictionary batched_structs extend_struct subplot_titles))

/-- C1 (evaluation at the failing input): with structures of batch sizes 1
and 3 and `extend_struct = False`, the size-1 structure is added to all
three subplots when it sits at list position 0 (its skip test compares its
batch length against its list position `i = 0`, never against the subplot
index), and it is skipped from every subplot — including the first — when
it sits at list position 1.  This contradicts both the claim and the
function's own docstring, which promises that size-1 structures with
`extend_struct = False` are rendered in the first subplot. -/
theorem claim_C1_eval :
    plot_batch_individually (Sum.inl ([[5], [1, 2, 3]] : List (List ℕ))) false none =
      Except.ok (some
        [("subplot 1", [("trace1-1", 5), ("trace1-2", 1)]),
         ("subplot 2", [("trace2-1", 5), ("trace2-2", 2)]),
         ("subplot 3", [("trace3-1", 5), ("trace3-2", 3)])]) ∧
    plot_batch_individually (Sum.inl ([[1, 2, 3], [5]] : List (List ℕ))) false none =
      Except.ok (some
        [("subplot 1", [("trace1-1", 1)]),
         ("subplot 2", [("trace2-1", 2)]),
         ("subplot 3", [("trace3-1", 3)])]) :=
  ⟨rfl, rfl⟩

/-- C6 (counterexample): for the empty list input,
`plot_batch_individually` does not raise; it returns the warning value
`None` (modelled `Except.ok none`). -/
theorem claim_C6_counterexample :
    plot_batch_individually (Sum.inl ([] : List (List ℕ))) true none =
      Except.ok none := rfl

/-- C6 (amended): for the empty list as input, `plot_batch_individually`
emits the `"No structs to plot"` warning and returns `None` (no figure),
for every `extend_struct` and `subplot_titles` argument, rather than
raising an invalid-input error. -/
theorem claim_C6_amended (extend_struct : Bool) (subplot_titles : Option (List String)) :
    plot_batch_individually (α := ℕ) (Sum.inl []) extend_struct subplot_titles =
      Except.ok none := rfl

/-- C7 (counterexample): an empty `subplot_titles` list with
`max_size = 2 > 0` does not raise the count-mismatch error; it is treated
as absent (Python truthiness) and the generated default titles are used. -/
theorem claim_C7_counterexample :
    plot_batch_individually (Sum.inl ([[1, 2]] : List (List ℕ))) true
        (some ([] : List String)) =
      Except.ok (some
        [("subplot 1", [("trace1-1", 1)]),
         ("subplot 2", [("trace2-1", 2)])]) := rfl

/-- C7 (amended): whenever `subplot_titles` is given as a non-empty list
whose length differs from `max_size` (and the input passes the earlier
emptiness and batch-size checks), the call fails with the count-mismatch
error; an empty `subplot_titles` list is instead treated like an absent
argument. -/
theorem claim_C7_amended (input : List (List ℕ) ⊕ List ℕ) (extend_struct : Bool)
    (ts : List String)
    (h1 : input_len input ≠ 0) (h2 : bad_size_struct input = none)
    (h3 : max_size_of input ≠ 0) (h4 : ts ≠ [])
    (h5 : ts.length ≠ max_size_of input) :
    plot_batch_individually input extend_struct (some ts) =
      Except.error "invalid number of subplot titles" := by
  have htruthy : titles_truthy (some ts) = true := by
    simp [titles_truthy, h4]
  rw [plot_batch_individually, if_neg h1, h2]
  rw [if_neg h3, if_pos]
  exact ⟨htruthy, by simpa using h5⟩

/-- Witness for C7 (amended): one structure of batch size 2 with a single
title. -/
theorem claim_C7_witness :
    plot_batch_individually (Sum.inl ([[1, 2]] : List (List ℕ))) true (some ["a"]) =
      Except.error "invalid number of subplot titles" :=
  claim_C7_amended (Sum.inl [[1, 2]]) true ["a"] (by decide) (by decide) (by decide)
    (by decide) (by decide)

/-- C9: a list of two structures of batch size 2 without titles yields the
two subplots `subplot 1`, `subplot 2` with traces `trace1-1`, `trace1-2`
and `trace2-1`, `trace2-2`; in general the trace at list position `i`
(0-based) of subplot index `n` (0-based) is named
`trace` ++ (n+1) ++ `-` ++ (i+1) whenever that structure is not skipped,
and a single non-list input always yields the single trace name
`trace` ++ (n+1) ++ `-1`. -/
theorem claim_C9 :
    (plot_batch_individually (Sum.inl ([[10, 11], [20, 21]] : List (List ℕ))) true none =
      Except.ok (some
        [("subplot 1", [("trace1-1", 10), ("trace1-2", 20)]),
         ("subplot 2", [("trace2-1", 11), ("trace2-2", 21)])])) ∧
    (∀ (structs : List (List ℕ)) (extend_struct : Bool) (n i : ℕ) (s : List ℕ),
      structs[i]? = some s → ¬(s.length ≤ i ∧ extend_struct = false) →
      ("trace" ++ toString (n + 1) ++ "-" ++ toString (i + 1)) ∈
        (subplot_entries (Sum.inl structs) extend_struct n).map Prod.fst) ∧
    (∀ (s : List ℕ) (extend_struct : Bool) (n : ℕ),
      (subplot_entries (Sum.inr s) extend_struct n).map Prod.fst =
        ["trace" ++ toString (n + 1) ++ "-" ++ toString 1]) := by
  refine ⟨rfl, ?_, ?_⟩
  · intro structs extend_struct n i s hget hskip
    have henum : (i, s) ∈ structs.enum := List.mk_mem_enum_iff_getElem?.mpr hget
    have hmem : _add_struct_from_batch s n (i + 1) ∈
        subplot_entries (Sum.inl structs) extend_struct n := by
      refine List.mem_filterMap.mpr ⟨(i, s), henum, ?_⟩
      simp only [if_neg hskip]
    exact List.mem_map_of_mem Prod.fst hmem
  · intro s extend_struct n
    rfl

/-- Witness for C9: the general clauses instantiated at subplot index 1,
list position 0 of a two-structure list, and at a single structure. -/
theorem claim_C9_witness :
    (plot_batch_individually (Sum.inl ([[10, 11], [20, 21]] : List (List ℕ))) true none =
      Except.ok (some
        [("subplot 1", [("trace1-1", 10), ("trace1-2", 20)]),
         ("subplot 2", [("trace2-1", 11), ("trace2-2", 21)])])) ∧
    ("trace" ++ toString (1 + 1) ++ "-" ++ toString (0 + 1)) ∈
      (subplot_entries (Sum.inl ([[10, 11], [20, 21]] : List (List ℕ))) true 1).map
        Prod.fst ∧
    (subplot_entries (Sum.inr ([7] : List ℕ)) true 2).map Prod.fst =
      ["trace" ++ toString (2 + 1) ++ "-" ++ toString 1] :=
  ⟨claim_C9.1,
   claim_C9.2.1 [[10, 11], [20, 21]] true 1 0 [10, 11] (by decide) (by decide),
   claim_C9.2.2 [7] true 2⟩

/-- C10: a single (non-list) structure of batch length 0 hits the length-0
warning path (`Except.ok none`, modelling warn-and-return-`None`), and for
a single structure the `"No data is provided with at least one element"`
error is unreachable for every argument combination. -/
theorem claim_C10 (s : List ℕ) (extend_struct : Bool)
    (subplot_titles : Option (List String)) :
    (s.length = 0 →
      plot_batch_individually (Sum.inr s) extend_struct subplot_titles =
        Except.ok none) ∧
    plot_batch_individually (Sum.inr s) extend_struct subplot_titles ≠
      Except.error "No data is provided with at least one element" := by
  constructor
  · intro h
    rw [plot_batch_individually, if_pos]
    simpa [input_len] using h
  · cases s with
    | nil =>
      intro hcontra
      simp [plot_batch_individually, input_len] at hcontra
    | cons a as =>
      have h1 : input_len (Sum.inr (a :: as) : List (List ℕ) ⊕ List ℕ) ≠ 0 := by
        simp [input_len]
      have h3 : max_size_of (Sum.inr (a :: as) : List (List ℕ) ⊕ List ℕ) ≠ 0 := by
        simp [max_size_of]
      intro hcontra
      rw [plot_batch_individually, if_neg h1] at hcontra
      simp only [bad_size_struct] at hcontra
      rw [if_neg h3] at hcontra
      by_cases hc : titles_truthy subplot_titles = true ∧
          (subplot_titles.getD []).length ≠
            max_size_of (Sum.inr (a :: as) : List (List ℕ) ⊕ List ℕ)
      · rw [if_pos hc] at hcontra
        have : "invalid number of subplot titles" =
            "No data is provided with at least one element" :=
          Except.error.inj hcontra
        exact absurd this (by decide)
      · rw [if_neg hc] at hcontra
        cases hcontra

/-- Witness for C10 at the empty single structure. -/
theorem claim_C10_witness :
    plot_batch_individually (Sum.inr ([] : List ℕ)) true none = Except.ok none ∧
    plot_batch_individually (Sum.inr ([] : List ℕ)) true none ≠
      Except.error "No data is provided with at least one element" :=
  ⟨(claim_C10 [] true none).1 rfl, (claim_C10 [] true none).2⟩

/-! ### `plot_scene`

`plot_scene` first builds the figure with all its subplots
(`_gen_fig_with_subplots(len(subplots), ncols, subplots)`) and only then
iterates over the scene dictionary, adding one trace per entry and raising
`ValueError` when a value is neither a `Meshes` nor a `Pointclouds`
object.  The model records the figure state visible at each point: how
many subplots the grid was built with and which traces were added, plus
the error raised (if any), so that the order between figure construction
and validation is observable. -/

/-- A value of the scene dictionary: a mesh, a point cloud, or anything
else (carrying the string Python's `format` would print for it). -/
inductive SceneVal where
  | mesh : ℕ → SceneVal
  | cloud : ℕ → SceneVal
  | other : String → SceneVal
deriving DecidableEq

/-- Observable figure state: how many subplots `make_subplots` created,
and the names of the traces added so far (in order). -/
structure FigState where
  subplots_built : ℕ
  traces_added : List String
deriving DecidableEq

/-- The `ValueError` message for a non-mesh non-pointcloud value whose
formatted representation is `s`. -/
def invalid_msg (s : String) : String :=
  "struct " ++ s ++ " is not a Meshes or Pointclouds object"

/-- The invalid-value test applied to one (trace name, value) entry. -/
def val_invalid : String × SceneVal → Option String
  | (_, SceneVal.other s) => some s
  | _ => none

/-- Process the traces of one subplot in order: add each mesh/pointcloud
trace, stop with the `ValueError` at the first other value. -/
def add_traces : FigState → List (String × SceneVal) → FigState × Option String
  | st, [] => (st, none)
  | st, (name, v) :: rest =>
    match v with
    | SceneVal.other s => (st, some (invalid_msg s))
    | _ => add_traces ⟨st.subplots_built, st.traces_added ++ [name]⟩ rest

/-- Process the subplots in order, stopping at the first error. -/
def run_subplots : FigState → List (String × List (String × SceneVal)) →
    FigState × Option String
  | st, [] => (st, none)
  | st, sp :: rest =>
    match add_traces st sp.2 with
    | (st2, none) => run_subplots st2 rest
    | (st2, some e) => (st2, some e)

/-- `plot_scene(plots)`: the grid with one subplot per dictionary key is
built first, then the traces are processed. -/
def plot_scene (plots : List (String × List (String × SceneVal))) :
    FigState × Option String :=
  run_subplots ⟨plots.length, []⟩ plots

/-- The representation of the first invalid value of the scene dictionary,
in iteration order. -/
def first_invalid (plots : List (String × List (String × SceneVal))) : Option String :=
  ((plots.map Prod.snd).flatten).findSome? val_invalid

theorem add_traces_spec (st : FigState) (ts : List (String × SceneVal)) :
    (add_traces st ts).2 = (ts.findSome? val_invalid).map invalid_msg ∧
    (add_traces st ts).1.subplots_built = st.subplots_built := by
  induction ts generalizing st with
  | nil => simp [add_traces]
  | cons t rest ih =>
    obtain ⟨name, v⟩ := t
    cases v with
    | mesh k => simpa [add_traces, val_invalid] using ih _
    | cloud k => simpa [add_traces, val_invalid] using ih _
    | other s => simp [add_traces, val_invalid]

theorem run_subplots_spec (st : FigState)
    (plots : List (String × List (String × SceneVal))) :
    (run_subplots st plots).2 =
      (((plots.map Prod.snd).flatten).findSome? val_invalid).map invalid_msg ∧
    (run_subplots st plots).1.subplots_built = st.subplots_built := by
  induction plots generalizing st with
  | nil => simp [run_subplots]
  | cons p rest ih =>
    have ha := add_traces_spec st p.2
    rcases hE : add_traces st p.2 with ⟨st2, err⟩
    rw [hE] at ha
    cases err with
    | none =>
      have hnone : p.2.findSome? val_invalid = none := by
        have := ha.1
        simp only at this
        exact Option.map_eq_none'.mp this.symm
      have hrun : run_subplots st (p :: rest) = run_subplots st2 rest := by
        simp [run_subplots, hE]
      rw [hrun]
      refine ⟨?_, (ih st2).2.trans ha.2⟩
      rw [(ih st2).1]
      simp [List.findSome?_append, hnone]
    | some e =>
      have hsome : ∃ s, p.2.findSome? val_invalid = some s ∧ e = invalid_msg s := by
        have h1 := ha.1
        simp only at h1
        cases hf : p.2.findSome? val_invalid with
        | none => rw [hf] at h1; simp at h1
        | some s => rw [hf] at h1; simp at h1; exact ⟨s, rfl, h1⟩
      obtain ⟨s, hf, he⟩ := hsome
      have hrun : run_subplots st (p :: rest) = (st2, some e) := by
        simp [run_subplots, hE]
      rw [hrun]
      constructor
      · simp [List.findSome?_append, hf, he]
      · exact ha.2

/-- C5 (amended): whenever the scene dictionary contains a value that is
neither a mesh nor a point cloud, `plot_scene` raises the invalid-input
error naming the first such value in iteration order — but only after the
full subplot grid has been built (and after the traces preceding it have
been added), not before any figure mutation. -/
theorem claim_C5_amended (plots : List (String × List (String × SceneVal)))
    (s : String) (h : first_invalid plots = some s) :
    (plot_scene plots).2 =
      some ("struct " ++ s ++ " is not a Meshes or Pointclouds object") ∧
    (plot_scene plots).1.subplots_built = plots.length := by
  have hs := run_subplots_spec ⟨plots.length, []⟩ plots
  refine ⟨?_, hs.2⟩
  rw [plot_scene] at *
  rw [hs.1]
  rw [first_invalid] at h
  rw [h]
  rfl

/-- The concrete scene dictionary used for C5: a valid mesh trace followed
by the integer value 3 (formatted `"3"`). -/
def exC5 : List (String × List (String × SceneVal)) :=
  [("subplot A", [("trace good", SceneVal.mesh 0), ("trace bad", SceneVal.other "3")])]

/-- C5 (counterexample): on `exC5` the error is raised with the subplot
grid already built (1 subplot) and one trace already added, so the
invalid-input error does not precede all figure mutation. -/
theorem claim_C5_counterexample :
    plot_scene exC5 =
      (⟨1, ["trace good"]⟩, some "struct 3 is not a Meshes or Pointclouds object") ∧
    (plot_scene exC5).1.subplots_built ≠ 0 ∧
    (plot_scene exC5).1.traces_added ≠ [] :=
  ⟨rfl, by decide, by decide⟩

/-- Witness for C5 (amended) at the concrete dictionary `exC5`. -/
theorem claim_C5_witness :
    (plot_scene exC5).2 =
      some ("struct " ++ "3" ++ " is not a Meshes or Pointclouds object") ∧
    (plot_scene exC5).1.subplots_built = exC5.length :=
  claim_C5_amended exC5 "3" rfl

/-! ### `_add_mesh_trace`

The Python function marks the vertices referenced by some face
(`verts_used[torch.unique(faces)] = True`), computes
`verts_center = verts[verts_used].mean(0)`, overwrites the unreferenced
vertices with that center (`verts[~verts_used] = verts_center`), and then
passes `verts_center` to `_update_axes_bounds`.

`ref_verts_from used k vs` models the boolean-mask selection
`verts[verts_used]` and `relocate_from used c k vs` models the masked
assignment, both walking the vertex list with explicit index `k` (the
function is always entered at `k = 0`). -/

/-- Whether vertex index `i` is referenced by some face (membership in
`torch.unique(faces)`). -/
def usedIn (faces : List (ℕ × ℕ × ℕ)) (i : ℕ) : Bool :=
  faces.any (fun f => f.1 == i || f.2.1 == i || f.2.2 == i)

/-- The sublist of vertices whose index (starting at `k`) satisfies
`used` — the mask selection `verts[verts_used]`. -/
def ref_verts_from (used : ℕ → Bool) : ℕ → List Vec3 → List Vec3
  | _, [] => []
  | k, v :: vs =>
    if used k then v :: ref_verts_from used (k + 1) vs
    else ref_verts_from used (k + 1) vs

/-- The vertex list after the masked assignment
`verts[~verts_used] = c` (indices starting at `k`). -/
def relocate_from (used : ℕ → Bool) (c : Vec3) : ℕ → List Vec3 → List Vec3
  | _, [] => []
  | k, v :: vs => (if used k then v else c) :: relocate_from used c (k + 1) vs

/-- Componentwise mean of a list of 3D points (`tensor.mean(0)`). -/
def mean_points (l : List Vec3) : Vec3 := ((l.length : ℚ))⁻¹ • l.sum

/-- `verts_center = verts[verts_used].mean(0)` — the center that
`_add_mesh_trace` reports to `_update_axes_bounds`. -/
def verts_center (verts : List Vec3) (faces : List (ℕ × ℕ × ℕ)) : Vec3 :=
  mean_points (ref_verts_from (usedIn faces) 0 verts)

/-- The vertex positions actually plotted: the original vertices with the
unreferenced ones relocated to `verts_center`. -/
def plotted_verts (verts : List Vec3) (faces : List (ℕ × ℕ × ℕ)) : List Vec3 :=
  relocate_from (usedIn faces) (verts_center verts faces) 0 verts

theorem ref_verts_from_length_le (used : ℕ → Bool) (k : ℕ) (vs : List Vec3) :
    (ref_verts_from used k vs).length ≤ vs.length := by
  induction vs generalizing k with
  | nil => simp [ref_verts_from]
  | cons v vs ih =>
    by_cases h : used k
    · simpa [ref_verts_from, h] using ih (k + 1)
    · simp only [ref_verts_from, h, if_false, List.length_cons]
      exact le_trans (ih (k + 1)) (Nat.le_succ _)

theorem relocate_from_length (used : ℕ → Bool) (c : Vec3) (k : ℕ) (vs : List Vec3) :
    (relocate_from used c k vs).length = vs.length := by
  induction vs generalizing k with
  | nil => rfl
  | cons v vs ih => simp [relocate_from, ih (k + 1)]

/-- Sum decomposition: the relocated list sums to the referenced part plus
one copy of `c` per unreferenced vertex. -/
theorem relocate_from_sum (used : ℕ → Bool) (c : Vec3) (k : ℕ) (vs : List Vec3) :
    (relocate_from used c k vs).sum =
      (ref_verts_from used k vs).sum +
        ((vs.length - (ref_verts_from used k vs).length : ℕ) : ℚ) • c := by
  induction vs generalizing k with
  | nil => simp [relocate_from, ref_verts_from]
  | cons v vs ih =>
    by_cases h : used k
    · simp only [relocate_from, ref_verts_from, h, if_true, List.sum_cons,
        List.length_cons]
      rw [ih (k + 1)]
      have heq : vs.length + 1 - ((ref_verts_from used (k + 1) vs).length + 1) =
          vs.length - (ref_verts_from used (k + 1) vs).length := by omega
      rw [heq, add_assoc]
    · have h' : used k = false := by simpa using h
      simp only [relocate_from, ref_verts_from, h', Bool.false_eq_true, if_false,
        List.sum_cons, List.length_cons]
      rw [ih (k + 1)]
      have hle := ref_verts_from_length_le used (k + 1) vs
      have heq : vs.length + 1 - (ref_verts_from used (k + 1) vs).length =
          (vs.length - (ref_verts_from used (k + 1) vs).length) + 1 := by omega
      rw [heq]
      push_cast
      rw [add_smul, one_smul]
      abel

/-- An unreferenced position reads back as `c` after the masked
assignment. -/
theorem relocate_from_getD (used : ℕ → Bool) (c : Vec3) (k i : ℕ)
    (vs : List Vec3) (d : Vec3) (hi : i < vs.length)
    (hu : used (k + i) = false) :
    (relocate_from used c k vs).getD i d = c := by
  induction vs generalizing k i with
  | nil => simp at hi
  | cons v vs ih =>
    cases i with
    | zero =>
      rw [Nat.add_zero] at hu
      simp [relocate_from, hu]
    | succ j =>
      have hu' : used ((k + 1) + j) = false := by
        have : (k + 1) + j = k + (j + 1) := by omega
        rw [this]
        exact hu
      have hj : j < vs.length := Nat.succ_lt_succ_iff.mp hi
      simpa [relocate_from] using ih (k + 1) j hj hu'

/-- If some in-range index is referenced, the referenced selection is
non-empty. -/
theorem ref_verts_from_pos (used : ℕ → Bool) (k i : ℕ) (vs : List Vec3)
    (hi : i < vs.length) (hu : used (k + i) = true) :
    0 < (ref_verts_from used k vs).length := by
  induction vs generalizing k i with
  | nil => simp at hi
  | cons v vs ih =>
    by_cases h : used k
    · simp [ref_verts_from, h]
    · cases i with
      | zero =>
        rw [Nat.add_zero] at hu
        rw [hu] at h
        simp at h
      | succ j =>
        have hu' : used ((k + 1) + j) = true := by
          have : (k + 1) + j = k + (j + 1) := by omega
          rw [this]
          exact hu
        have hj : j < vs.length := Nat.succ_lt_succ_iff.mp hi
        simpa [ref_verts_from, h] using ih (k + 1) j hj hu'

/-- C4: for a mesh with at least one (in-range) face, every vertex not
referenced by any face is relocated to the centroid of the referenced
vertices, and the center `_add_mesh_trace` reports to `_update_axes_bounds`
(`verts_center`, the mean of the referenced vertices) equals the mean of
all plotted vertices, relocated ones included. -/
theorem claim_C4 (verts : List Vec3) (faces : List (ℕ × ℕ × ℕ))
    (hne : faces ≠ [])
    (hvalid : ∀ f ∈ faces,
      f.1 < verts.length ∧ f.2.1 < verts.length ∧ f.2.2 < verts.length) :
    (∀ i, i < verts.length → usedIn faces i = false →
      (plotted_verts verts faces).getD i (0, 0, 0) = verts_center verts faces) ∧
    verts_center verts faces = mean_points (plotted_verts verts faces) := by
  constructor
  · intro i hi hu
    exact relocate_from_getD (usedIn faces) (verts_center verts faces) 0 i verts
      (0, 0, 0) hi (by simpa using hu)
  · cases faces with
    | nil => exact absurd rfl hne
    | cons f fs =>
      have hf1 : f.1 < verts.length := (hvalid f (List.mem_cons_self f fs)).1
      have hused : usedIn (f :: fs) f.1 = true := by
        apply List.any_eq_true.mpr
        exact ⟨f, List.mem_cons_self f fs, by simp⟩
      have hm : 0 < (ref_verts_from (usedIn (f :: fs)) 0 verts).length :=
        ref_verts_from_pos (usedIn (f :: fs)) 0 f.1 verts hf1 (by simpa using hused)
      set used := usedIn (f :: fs) with hused_def
      set R := ref_verts_from used 0 verts with hR
      set m := R.length with hmdef
      set n := verts.length with hndef
      have hn : 0 < n := lt_of_le_of_lt (Nat.zero_le _) hf1
      have hmn : m ≤ n := ref_verts_from_length_le used 0 verts
      have hmQ : (m : ℚ) ≠ 0 := by exact_mod_cast hm.ne'
      have hnQ : (n : ℚ) ≠ 0 := by exact_mod_cast hn.ne'
      have hc : R.sum = (m : ℚ) • verts_center verts (f :: fs) := by
        rw [verts_center, mean_points]
        rw [smul_inv_smul₀ hmQ]
      have hsum : (plotted_verts verts (f :: fs)).sum =
          ((n : ℚ)) • verts_center verts (f :: fs) := by
        rw [plotted_verts, relocate_from_sum, ← hR, ← hmdef, ← hndef, hc, ← add_smul]
        congr 1
        have : (m : ℚ) + ((n - m : ℕ) : ℚ) = ((m + (n - m) : ℕ) : ℚ) := by push_cast; ring
        rw [this, Nat.add_sub_cancel' hmn]
      rw [mean_points]
      rw [show (plotted_verts verts (f :: fs)).length = n from by
        rw [plotted_verts]; exact relocate_from_length _ _ _ _]
      rw [hsum, inv_smul_smul₀ hnQ]

/-- Concrete mesh for the C4 witness: a triangle over the first three
vertices plus one vertex referenced by no face. -/
def meshV : List Vec3 := [(0, 0, 0), (2, 0, 0), (0, 2, 0), (9, 9, 9)]

/-- The single face of the witness mesh. -/
def meshF : List (ℕ × ℕ × ℕ) := [(0, 1, 2)]

/-- Witness for C4: on `meshV`/`meshF` the unreferenced vertex 3 is
relocated to the referenced centroid and the reported center is the mean
of the plotted vertices. -/
theorem claim_C4_witness :
    (plotted_verts meshV meshF).getD 3 (0, 0, 0) = verts_center meshV meshF ∧
    verts_center meshV meshF = mean_points (plotted_verts meshV meshF) :=
  ⟨(claim_C4 meshV meshF (by decide) (by decide)).1 3 (by decide) (by decide),
   (claim_C4 meshV meshF (by decide) (by decide)).2⟩

/-! ### `_add_pointcloud_trace`

The feature tensor and the effect of Python/torch indexing on it are
modelled by a nested tensor.  The key subtlety is the line
`features = features[indices]`, executed unconditionally: when no
subsampling occurred, `indices` is `None`, and indexing a torch tensor
with `None` does not leave it unchanged — it inserts a new leading
dimension of size 1 (`unsqueeze`).  Afterwards the code dispatches on
`features.shape[1]`, which for the unsqueezed tensor is the point count
rather than the channel count.

`sample` stands for the index list drawn by `np.random.choice`; it is
consulted only when the point count exceeds
`max_points_per_pointcloud * len(pointclouds)`, so the claims below do not
depend on its distribution.  A row whose arity does not match the
`"rgb(%d, %d, %d)"` / `"rgb(%d, %d, %d, %f)"` template (a case where the
Python string formatting would raise) yields `none`.  The emitted color
strings are modelled structurally by `PlotlyColor`: `rgb r g b` stands for
the string `rgb(r, g, b)` and `rgba r g b a` for `rgb(r, g, b, a)` with
the alpha left unscaled. -/

/-- A nested (rectangular in all reachable cases) tensor of rationals. -/
inductive NTensor where
  | val : ℚ → NTensor
  | arr : List NTensor → NTensor

/-- Build the 2-dimensional feature tensor from its rows
(`features_packed()`, shape `(num_points, num_channels)`). -/
def NTensor.ofRows (rows : List (List ℚ)) : NTensor :=
  NTensor.arr (rows.map (fun r => NTensor.arr (r.map NTensor.val)))

/-- Integer-array indexing along dimension 0 (`t[indices]`). -/
def NTensor.index_rows (t : NTensor) (is : List ℕ) : NTensor :=
  match t with
  | NTensor.arr rows => NTensor.arr (is.map (fun i => rows.getD i (NTensor.arr [])))
  | NTensor.val q => NTensor.val q

/-- `features[indices]` where `indices : Optional[ndarray]`: integer-array
indexing when present, and `features[None]` — insertion of a new leading
axis of size 1 — when absent. -/
def feature_index (t : NTensor) : Option (List ℕ) → NTensor
  | some is => t.index_rows is
  | none => NTensor.arr [t]

/-- `t.shape[1]`: the length of the first element of the outer dimension. -/
def NTensor.shape1 : NTensor → ℕ
  | NTensor.arr (x :: _) =>
    match x with
    | NTensor.arr ys => ys.length
    | NTensor.val _ => 0
  | _ => 0

/-- A color value emitted for one point. -/
inductive PlotlyColor where
  | rgb : ℤ → ℤ → ℤ → PlotlyColor
  | rgba : ℤ → ℤ → ℤ → ℚ → PlotlyColor
deriving DecidableEq

/-- `x.clamp(0.0, 1.0)`: `min(max(x, 0), 1)`, written with explicit
comparisons. -/
def clamp01 (q : ℚ) : ℚ := if q < 0 then 0 else if 1 < q then 1 else q

/-- One color channel: `(x.clamp(0.0, 1.0) * 255).int()` — clamp to
`[0, 1]`, scale by 255, truncate to integer (equal to the floor on these
non-negative values). -/
def to_byte (q : ℚ) : ℤ := ⌊clamp01 q * 255⌋

/-- Format one row through the `"rgb(%d, %d, %d)"` template. -/
def row_rgb : NTensor → Option PlotlyColor
  | NTensor.arr [NTensor.val x, NTensor.val y, NTensor.val z] =>
      some (PlotlyColor.rgb (to_byte x) (to_byte y) (to_byte z))
  | _ => none

/-- Format one row through the `"rgb(%d, %d, %d, %f)"` template: the
first three channels clamped and scaled, the fourth passed through. -/
def row_rgba : NTensor → Option PlotlyColor
  | NTensor.arr [NTensor.val x, NTensor.val y, NTensor.val z, NTensor.val a] =>
      some (PlotlyColor.rgba (to_byte x) (to_byte y) (to_byte z) a)
  | _ => none

/-- The color list computed by `_add_pointcloud_trace` from the (already
indexed) feature tensor: the rgba branch when `shape[1] == 4`, the rgb
branch when `shape[1] == 3`, no color otherwise. -/
def color_of (t : NTensor) : Option (List PlotlyColor) :=
  if NTensor.shape1 t = 4 then
    match t with
    | NTensor.arr rows => rows.mapM row_rgba
    | _ => none
  else if NTensor.shape1 t = 3 then
    match t with
    | NTensor.arr rows => rows.mapM row_rgb
    | _ => none
  else none

/-- The data of the emitted scatter trace. -/
structure PointTrace where
  verts : List Vec3
  color : Option (List PlotlyColor)
deriving DecidableEq

/-- `_add_pointcloud_trace(fig, pointclouds, ...)` restricted to its data
computation: points and features packed, optional subsampling by the
random draw `sample` when the point count exceeds
`max_points_per_pointcloud * num_clouds`, the (buggy when not
subsampling) feature indexing, and the color dispatch. -/
def _add_pointcloud_trace (points : List Vec3) (features : Option (List (List ℚ)))
    (max_points_per_pointcloud num_clouds : ℕ) (sample : List ℕ) : PointTrace :=
  let total_points_count := max_points_per_pointcloud * num_clouds
  let indices : Option (List ℕ) :=
    if total_points_count < points.length then some sample else none
  let verts : List Vec3 :=
    match indices with
    | some is => is.map (fun i => points.getD i (0, 0, 0))
    | none => points
  let color : Option (List PlotlyColor) :=
    match features with
    | none => none
    | some fs => color_of (feature_index (NTensor.ofRows fs) indices)
  ⟨verts, color⟩

/-- C2 (evaluation at the failing input): a point cloud of 2 points with
3-channel features and no subsampling (`max_points = 20000`) emits no
color at all — `features[None]` turns the shape-`(2, 3)` feature tensor
into shape `(1, 2, 3)` whose `shape[1]` is the point count 2, so neither
color branch fires — although the claim promises `rgb` colors for every
3-channel feature array.  On the subsampled path (last conjunct) the
features are indexed with the same index set as the points and the
3-channel branch does fire. -/
theorem claim_C2_eval :
    (_add_pointcloud_trace [(0, 0, 0), (1, 1, 1)]
        (some [[1, 0, 0], [0, 1, 0]]) 20000 1 []).color = none ∧
    (NTensor.ofRows [[1, 0, 0], [0, 1, 0]]).shape1 = 3 ∧
    (feature_index (NTensor.ofRows [[1, 0, 0], [0, 1, 0]]) none).shape1 = 2 ∧
    _add_pointcloud_trace [(0, 0, 0), (1, 1, 1)]
        (some [[1, 0, 0], [0, 1, 0]]) 1 1 [0] =
      ⟨[(0, 0, 0)], some [PlotlyColor.rgb 255 0 0]⟩ := by
  refine ⟨rfl, rfl, rfl, ?_⟩
  have hstep : _add_pointcloud_trace [(0, 0, 0), (1, 1, 1)]
      (some [[1, 0, 0], [0, 1, 0]]) 1 1 [0] =
      ⟨[(0, 0, 0)], some [PlotlyColor.rgb (to_byte 1) (to_byte 0) (to_byte 0)]⟩ := rfl
  have h1 : to_byte 1 = 255 := by norm_num [to_byte, clamp01]
  have h0 : to_byte 0 = 0 := by norm_num [to_byte, clamp01]
  rw [hstep, h1, h0]
